import Mathlib

/-!
Verification development for the Self-collaboration code-generation pipeline.

The development shallowly embeds the core of the repository:
  * `utils.py`: `build_test_method` and `find_method_name`
    (Python `ast.parse` is external library code, so parsing is modelled
    abstractly as an `Option (List String)` holding the names of the
    top-level function definitions in order, `none` meaning a parse failure);
  * `session.py`: `unsafe_execute` together with `reliability_guard`,
    modelled as a pure transformer over a record of the process-wide
    resources they mutate (current working directory and the function
    slots that `reliability_guard` nulls out), with the outcome of the
    Python `exec` call abstracted into an inductive `ExecOutcome`;
  * `Session.run_session`, modelled as an explicit fuel-indexed loop over
    an `Oracle` packaging the external role-client calls (analyst, coder,
    tester), the sandbox's observable result string, and the entry-point
    extraction on candidate strings.  The loop additionally records an
    event log of the test programs actually executed, so that temporal
    statements ("testing happened / did not happen in round i") are
    expressible.
-/

namespace SelfCollab

/-- Python `s.strip("\n")`: remove the character `c` from both ends of `s`. -/
def stripChar (c : Char) (s : String) : String :=
  ⟨((s.data.dropWhile (fun a => a == c)).reverse.dropWhile (fun a => a == c)).reverse⟩

/-- Embedding of `utils.build_test_method`.  The source first assigns the
joined import lines to `test_method` and then immediately rebinds
`test_method` to the `def check(...)` header, so the import lines are
discarded; the two successive `let` bindings mirror that verbatim. -/
def build_test_method (test_list : List String) (test_imports : List String)
    (method_name : String) : String :=
  let test_method := if test_imports.isEmpty then ""
    else String.intercalate "\n" test_imports ++ "\n"
  let test_method := "def check(" ++ method_name ++ "):\n"
  if test_list.length == 0 then
    test_method ++ "\treturn True" ++ "\n"
  else
    stripChar '\n' (test_list.foldl (fun acc t => acc ++ "\t" ++ t ++ "\n") test_method)

/-- Embedding of `utils.find_method_name`.  The argument is the outcome of
`ast.parse` followed by filtering for top-level `FunctionDef` nodes:
`none` if parsing raised, otherwise the list of the definitions' names in
source order.  With a single definition its name is returned; with two or
more, the last one's name unless it is `"main"`, in which case the
second-to-last's; with none, `None`. -/
def find_method_name (parsed : Option (List String)) : Option String :=
  match parsed with
  | Option.none => Option.none
  | Option.some [] => Option.none
  | Option.some [f] => Option.some f
  | Option.some (a :: b :: rest) =>
      let function_defs := a :: b :: rest
      let lastName := function_defs.getLast (by simp)
      if lastName != "main" then Option.some lastName
      else Option.some (function_defs.dropLast.getLast (by simp [List.dropLast]))

/-- The entry-point selection rule as the specification words it: the name
of the last top-level definition, except that with at least two
definitions whose last is named `"main"` the second-to-last's name is
returned; `none` on parse failure or when no definition exists. -/
def methodNameSpec (parsed : Option (List String)) : Option String :=
  match parsed with
  | Option.none => Option.none
  | Option.some fds =>
      match fds.getLast? with
      | Option.none => Option.none
      | Option.some last =>
          if 2 ≤ fds.length ∧ last = "main" then fds.dropLast.getLast?
          else Option.some last

/-- Classified outcome of the Python `exec` call performed by
`unsafe_execute`: normal completion, an `AssertionError` carrying its
message, the `TimeoutException` raised by the alarm handler, or any other
`BaseException` carrying its string representation (a syntax error of the
program text is of this last kind). -/
inductive ExecOutcome where
  | ok : ExecOutcome
  | assertionError (msg : String) : ExecOutcome
  | timeout : ExecOutcome
  | otherError (msg : String) : ExecOutcome
deriving DecidableEq, Repr

/-- The process-wide resources touched by `unsafe_execute` and
`reliability_guard`: the current working directory and the function slots
the guard overwrites.  A slot holds `some name` when it still contains its
original function object, and `none` once it has been set to Python
`None`. -/
structure SysState where
  cwd : String
  shutil_rmtree : Option String
  os_rmdir : Option String
  os_chdir : Option String
  shutil_move : Option String
  shutil_chown : Option String
  subprocess_Popen : Option String
  builtins_exit : Option String
  builtins_quit : Option String
  builtins_help : Option String
deriving DecidableEq, Repr

/-- Embedding of `session.reliability_guard` (called with its default
`maximum_memory_bytes = None`, as `unsafe_execute` does): every listed
destructive operation is overwritten with Python `None`. -/
def reliability_guard (st : SysState) : SysState :=
  { st with
    builtins_exit := Option.none
    builtins_quit := Option.none
    os_rmdir := Option.none
    os_chdir := Option.none
    shutil_rmtree := Option.none
    shutil_move := Option.none
    shutil_chown := Option.none
    subprocess_Popen := Option.none
    builtins_help := Option.none }

/-- Embedding of `session.unsafe_execute`.  It enters a fresh temporary
directory `tmpdir`, saves `shutil.rmtree`, `os.rmdir` and `os.chdir`,
applies `reliability_guard`, classifies the outcome of executing the
check program via the `try`/`except` ladder, restores exactly the three
saved slots, and on leaving the `create_tempdir` context restores the
working directory.  Returns the result string with the final state. -/
def unsafe_execute (outcome : ExecOutcome) (st0 : SysState) (tmpdir : String) :
    String × SysState :=
  let cwd0 := st0.cwd
  let st1 := { st0 with cwd := tmpdir }
  let rmtree := st1.shutil_rmtree
  let rmdir := st1.os_rmdir
  let chdir := st1.os_chdir
  let st2 := reliability_guard st1
  let result :=
    match outcome with
    | ExecOutcome.ok => "Code Test Passed."
    | ExecOutcome.assertionError e => "failed with AssertionError. " ++ e
    | ExecOutcome.timeout => "timed out"
    | ExecOutcome.otherError e => e
  let st3 := { st2 with shutil_rmtree := rmtree, os_rmdir := rmdir, os_chdir := chdir }
  let st4 := { st3 with cwd := cwd0 }
  (result, st4)

/-- Python `s.strip()` as used by `run_session`'s blank-code check: remove
whitespace from both ends of `s`. -/
def pyStrip (s : String) : String :=
  ⟨((s.data.dropWhile Char.isWhitespace).reverse.dropWhile Char.isWhitespace).reverse⟩

/-- Python truthiness of the `method_name` variable in `run_session`
(`if method_name:`): `None` and the empty string are falsy, any other
string truthy. -/
def pyTruthyOptStr : Option String → Bool
  | Option.none => false
  | Option.some s => !(s == "")

/-- Python f-string interpolation of the `method_name` variable
(`f'check({method_name})'`): `None` renders as the four letters `None`. -/
def pyFormatOptStr : Option String → String
  | Option.none => "None"
  | Option.some s => s

/-- One recorded round of the session history: the code kept for the round
and, when the round reached testing, the report string (the record written
on the final permitted round carries no report). -/
structure RoundRec where
  code : String
  report : Option String
deriving DecidableEq, Repr

/-- One occurrence of the `BUILD_TEST`/`EXECUTE` stage: the code that was
tested and the full program string handed to the sandbox. -/
structure TestEvent where
  testedCode : String
  program : String
deriving DecidableEq, Repr

/-- The mutable locals of `run_session`'s loop, plus the history written so
far and the log of test executions performed so far. -/
structure LoopState where
  report : String
  is_init : Bool
  code : String
  rounds : List (Nat × RoundRec)
  events : List TestEvent
deriving DecidableEq, Repr

/-- The external collaborators of a `Session`, abstracted as pure
functions: `analyze` is the analyst's plan, `implement report is_init` the
coder's candidate, `test` the tester's raw reply, `truncate` the
`code_truncate` post-processing of that reply, `execute` the sandbox's
result string on a given program, and `findName` the entry-point
extraction `find_method_name` performs on a candidate string. -/
structure Oracle where
  analyze : String
  implement : String → Bool → String
  test : String → String
  truncate : String → String
  execute : String → String
  findName : String → Option String

/-- `self.session_history['Round_{i}']["code"]`: the code recorded for
round `i`.  `run_session` only consults this for a round it has already
written, so the default is never reached. -/
def lookupRoundCode (rounds : List (Nat × RoundRec)) (i : Nat) : String :=
  match rounds.find? (fun r => r.1 == i) with
  | Option.some r => r.2.code
  | Option.none => ""

/-- One iteration of the `for i in range(self.max_round)` loop of
`Session.run_session`, returning the updated state and whether the loop
`break`s.  The body follows the source line by line: implement, extract,
conditionally accept the candidate, the blank-code early exit (error
sentinel on round 0, fall back to the previous round's code later), the
final-round early exit that only records the code, then build the test
program, execute it, classify, record the round, and finally the error
sentinel check and the pass check. -/
def runRound (o : Oracle) (max_round : Nat) (before_func plan : String)
    (i : Nat) (st : LoopState) : LoopState × Bool :=
  let naivecode := o.implement st.report st.is_init
  let method_name := o.findName naivecode
  let code := if pyTruthyOptStr method_name then naivecode else st.code
  if pyStrip code == "" then
    let code := if i == 0 then "error" else lookupRoundCode st.rounds (i - 1)
    ({ st with code := code }, true)
  else if i == max_round - 1 then
    ({ st with code := code, rounds := st.rounds ++ [(i, ⟨code, Option.none⟩)] }, true)
  else
    let tests := o.test code
    let test_report := o.truncate tests
    let program := before_func ++ code ++ "\n" ++ test_report ++ "\n"
      ++ ("check(" ++ pyFormatOptStr method_name ++ ")")
    let answer_report := o.execute program
    let report := "The compilation output of the preceding code is: " ++ answer_report
    let st1 : LoopState :=
      { report := report
        is_init := false
        code := code
        rounds := st.rounds ++ [(i, ⟨code, Option.some report⟩)]
        events := st.events ++ [⟨code, program⟩] }
    if plan == "error" || code == "error" || report == "error" then
      ({ st1 with code := "error" }, true)
    else if answer_report == "Code Test Passed." then
      (st1, true)
    else
      (st1, false)

/-- The loop of `run_session`: run rounds starting at index `i` with the
given fuel (the remaining number of `range` iterations), stopping early
when the body `break`s. -/
def runRounds (o : Oracle) (max_round : Nat) (before_func plan : String) :
    Nat → Nat → LoopState → LoopState
  | 0, _, st => st
  | fuel + 1, i, st =>
      let r := runRound o max_round before_func plan i st
      if r.2 then r.1 else runRounds o max_round before_func plan fuel (i + 1) r.1

/-- What `run_session` returns and records: the final code artifact, the
plan stored under `session_history["plan"]`, the ordered round records,
and the log of test executions performed along the way. -/
structure SessionOutcome where
  code : String
  plan : String
  rounds : List (Nat × RoundRec)
  events : List TestEvent
deriving DecidableEq, Repr

/-- Embedding of `Session.run_session`: obtain the plan once, seed the
report with it, start with the empty code artifact, and run up to
`max_round` loop iterations. -/
def run_session (o : Oracle) (max_round : Nat) (before_func : String) :
    SessionOutcome :=
  let plan := o.analyze
  let st0 : LoopState :=
    { report := plan, is_init := true, code := "", rounds := [], events := [] }
  let stF := runRounds o max_round before_func plan max_round 0 st0
  { code := stF.code, plan := plan, rounds := stF.rounds, events := stF.events }

/-- A concrete pre-call system state in which every guarded slot still
holds its original function object. -/
def sysState0 : SysState :=
  { cwd := "/home/user"
    shutil_rmtree := Option.some "rmtree"
    os_rmdir := Option.some "rmdir"
    os_chdir := Option.some "chdir"
    shutil_move := Option.some "move"
    shutil_chown := Option.some "chown"
    subprocess_Popen := Option.some "Popen"
    builtins_exit := Option.some "exit"
    builtins_quit := Option.some "quit"
    builtins_help := Option.some "help" }

/-- A role-client oracle whose coder always returns the same valid
candidate with entry point `add`, and whose composed test program always
passes in the sandbox. -/
def goodOracle : Oracle :=
  { analyze := "the plan"
    implement := fun _ _ => "def add(a, b):\n\treturn a + b"
    test := fun _ => "assert add(1, 2) == 3"
    truncate := fun t => t
    execute := fun _ => "Code Test Passed."
    findName := fun _ => Option.some "add" }

/-- A role-client oracle whose coder's candidates never contain an
extractable top-level function definition. -/
def badOracle : Oracle :=
  { analyze := "the plan"
    implement := fun _ _ => "x = 1"
    test := fun _ => "assert True"
    truncate := fun t => t
    execute := fun _ => "Code Test Passed."
    findName := fun _ => Option.none }

/-- A role-client oracle whose analyst call failed upstream and returned
the literal error sentinel, while the coder still produces a valid,
passing candidate. -/
def errOracle : Oracle :=
  { analyze := "error"
    implement := fun _ _ => "def add(a, b):\n\treturn a + b"
    test := fun _ => "assert add(1, 2) == 3"
    truncate := fun t => t
    execute := fun _ => "Code Test Passed."
    findName := fun _ => Option.some "add" }

/-- The loop state at entry of round 0, for the plan `"the plan"`. -/
def stInit : LoopState :=
  { report := "the plan", is_init := true, code := "", rounds := [], events := [] }

/-- A loop state at entry of round 1 in which round 0 accepted and tested
a candidate, so a non-blank artifact is retained. -/
def stRetained : LoopState :=
  { report := "The compilation output of the preceding code is: boom"
    is_init := false
    code := "def add(a, b):\n\treturn a + b"
    rounds := [(0, ⟨"def add(a, b):\n\treturn a + b",
      Option.some "The compilation output of the preceding code is: boom"⟩)]
    events := [] }

/-- C1 (amended): after `unsafe_execute` returns — whatever the outcome of
the executed program — the working directory and the three slots saved
before `reliability_guard` ran (`shutil.rmtree`, `os.rmdir`, `os.chdir`)
are restored to their pre-call values, while every other operation nulled
by `reliability_guard` (`shutil.move`, `shutil.chown`, `subprocess.Popen`,
`builtins.exit`, `builtins.quit`, `help`) is left disabled. -/
theorem C1_unsafe_execute_restores_only_saved_slots
    (outcome : ExecOutcome) (st : SysState) (tmpdir : String) :
    ((unsafe_execute outcome st tmpdir).2).cwd = st.cwd
    ∧ ((unsafe_execute outcome st tmpdir).2).shutil_rmtree = st.shutil_rmtree
    ∧ ((unsafe_execute outcome st tmpdir).2).os_rmdir = st.os_rmdir
    ∧ ((unsafe_execute outcome st tmpdir).2).os_chdir = st.os_chdir
    ∧ ((unsafe_execute outcome st tmpdir).2).shutil_move = Option.none
    ∧ ((unsafe_execute outcome st tmpdir).2).shutil_chown = Option.none
    ∧ ((unsafe_execute outcome st tmpdir).2).subprocess_Popen = Option.none
    ∧ ((unsafe_execute outcome st tmpdir).2).builtins_exit = Option.none
    ∧ ((unsafe_execute outcome st tmpdir).2).builtins_quit = Option.none
    ∧ ((unsafe_execute outcome st tmpdir).2).builtins_help = Option.none := by
  cases outcome <;> simp [unsafe_execute, reliability_guard]

/-- C1 counterexample: starting from a state in which `subprocess.Popen`
holds its original function, a passing `unsafe_execute` call leaves it
`None` — so not every operation disabled by `reliability_guard` is
restored to its pre-call value. -/
theorem C1_popen_not_restored :
    ((unsafe_execute ExecOutcome.ok sysState0 "/tmp/sandbox").2).subprocess_Popen
      ≠ sysState0.subprocess_Popen := by
  decide

/-- C2: `unsafe_execute` is total and classifies every outcome of the
executed program into exactly one result string: normal completion into
`"Code Test Passed."`, an `AssertionError` into the assertion-failure
message carrying the assertion's text, deadline expiry into
`"timed out"`, and any other raised error (a parse error of the program
included) into that error's string representation — independently of the
ambient system state and temporary directory. -/
theorem C2_unsafe_execute_classification
    (outcome : ExecOutcome) (st : SysState) (tmpdir : String) :
    (unsafe_execute outcome st tmpdir).1 =
      (match outcome with
       | ExecOutcome.ok => "Code Test Passed."
       | ExecOutcome.assertionError e => "failed with AssertionError. " ++ e
       | ExecOutcome.timeout => "timed out"
       | ExecOutcome.otherError e => e) := by
  cases outcome <;> rfl

/-- C5 (code bug): `build_test_method` discards its import lines — the
binding holding the joined imports is immediately overwritten by the
`def check(...)` header — so the returned harness does not contain the
imports, and the result is entirely independent of the `test_imports`
argument. -/
theorem C5_imports_are_dropped :
    build_test_method ["assert candidate(1) == 2"] ["import math"] "candidate"
      = "def check(candidate):\n\tassert candidate(1) == 2"
    ∧ ∀ (test_list ti ti' : List String) (method_name : String),
        build_test_method test_list ti method_name
          = build_test_method test_list ti' method_name := by
  exact ⟨rfl, fun _ _ _ _ => rfl⟩

/-- C7: on an empty test list, `build_test_method` returns a `check`
routine whose body is the single statement `return True`: it reports
success unconditionally and never invokes the candidate, whatever the
entry-point name and import lines supplied. -/
theorem C7_empty_tests_harness_trivially_passes
    (test_imports : List String) (method_name : String) :
    build_test_method [] test_imports method_name
      = "def check(" ++ method_name ++ "):\n\treturn True\n" := by
  simp only [build_test_method, String.append_assoc]
  rfl

/-- C9: `find_method_name` is total over parse outcomes and agrees with
the specified selection rule: `none` on parse failure or when no
top-level function definition exists; otherwise the last definition's
name, except that with at least two definitions whose last is named
`"main"` the second-to-last's name is returned (a single definition named
`"main"` is returned as-is). -/
theorem C9_find_method_name_selects_entry_point (parsed : Option (List String)) :
    find_method_name parsed = methodNameSpec parsed := by
  match parsed with
  | Option.none => rfl
  | Option.some [] => rfl
  | Option.some [f] =>
      simp [find_method_name, methodNameSpec]
  | Option.some (a :: b :: rest) =>
      have hne : (a :: b :: rest) ≠ ([] : List String) := by simp
      have hd : (a :: b :: rest).dropLast ≠ ([] : List String) := by
        simp [List.dropLast]
      have h1 : (a :: b :: rest).getLast? =
          Option.some ((a :: b :: rest).getLast hne) :=
        List.getLast?_eq_getLast_of_ne_nil hne
      have h2 : (a :: b :: rest).dropLast.getLast? =
          Option.some ((a :: b :: rest).dropLast.getLast hd) :=
        List.getLast?_eq_getLast_of_ne_nil hd
      simp only [find_method_name, methodNameSpec, h1, h2, bne_iff_ne, ne_eq]
      by_cases hmain : (b :: rest).getLast (List.cons_ne_nil b rest) = "main"
      · rw [if_neg (by simp [hmain]), if_pos ⟨by simp, by simp [List.getLast_cons, hmain]⟩]
      · rw [if_pos (show ¬(a :: b :: rest).getLast hne = "main" by
            simpa [List.getLast_cons] using hmain),
          if_neg (by simp [List.getLast_cons, hmain])]

/-- C4 (amended): when no candidate ever has an extractable entry point,
`run_session` terminates in round 0 with the error sentinel for every
`max_round ≥ 1` — with `max_round = 1` as the claim states, but with
`max_round > 1` as well: later rounds are never reached and no artifact
is retained (no round record is written and no test is ever executed),
since no artifact was ever valid. -/
theorem C4_never_extractable_error_sentinel
    (o : Oracle) (M : Nat) (bf : String) (hM : 1 ≤ M)
    (hnone : ∀ report is_init,
      pyTruthyOptStr (o.findName (o.implement report is_init)) = false) :
    run_session o M bf =
      { code := "error", plan := o.analyze, rounds := [], events := [] } := by
  obtain ⟨k, rfl⟩ : ∃ k, M = k + 1 := ⟨M - 1, by omega⟩
  simp [run_session, runRounds, runRound, hnone, pyStrip]

/-- C4 witness: the never-extractable oracle with `max_round = 3`
terminates in round 0 with the error sentinel. -/
theorem C4_never_extractable_error_sentinel_witness :
    run_session badOracle 3 "" =
      { code := "error", plan := "the plan", rounds := [], events := [] } :=
  C4_never_extractable_error_sentinel badOracle 3 "" (by decide) (fun _ _ => rfl)

/-- C4 counterexample: with `max_round = 2` and a coder whose candidates
never have an extractable entry point, `run_session` does not exhaust all
rounds retaining a last-valid artifact — it terminates in round 0 with
the error sentinel, recording no round and executing no test. -/
theorem C4_round_zero_abort_not_exhaustion :
    (run_session badOracle 2 "").code = "error"
    ∧ (run_session badOracle 2 "").rounds = []
    ∧ (run_session badOracle 2 "").events = [] :=
  ⟨rfl, rfl, rfl⟩

/-- C3 counterexample: with `max_round = 1` and a coder that returns a
valid, passing candidate on its first call, `run_session` performs no
test execution at all — round 0 is the final permitted round, so it is
recorded without a report and no execution result (let alone the passed
classification) exists for it. -/
theorem C3_max_round_one_never_executes :
    (run_session goodOracle 1 "").events = []
    ∧ (run_session goodOracle 1 "").rounds
      = [(0, ⟨"def add(a, b):\n\treturn a + b", Option.none⟩)] :=
  ⟨rfl, rfl⟩

/-- C3 (amended): for `max_round ≥ 2`, a coder whose first candidate has
an extractable (non-empty) entry point, is non-blank, and whose composed
test program passes in the sandbox makes `run_session` terminate after
exactly one round: exactly one test execution happens, and the single
round record carries the passed classification as its execution
report. -/
theorem C3_first_round_pass_terminates_in_one_round
    (o : Oracle) (M : Nat) (bf m : String) (hM : 2 ≤ M)
    (hname : o.findName (o.implement o.analyze true) = Option.some m)
    (hm : m ≠ "")
    (hcode : pyStrip (o.implement o.analyze true) ≠ "")
    (hpass : o.execute (bf ++ o.implement o.analyze true ++ "\n"
        ++ o.truncate (o.test (o.implement o.analyze true)) ++ "\n"
        ++ ("check(" ++ m ++ ")")) = "Code Test Passed.") :
    (run_session o M bf).events
      = [⟨o.implement o.analyze true,
          bf ++ o.implement o.analyze true ++ "\n"
            ++ o.truncate (o.test (o.implement o.analyze true)) ++ "\n"
            ++ ("check(" ++ m ++ ")")⟩]
    ∧ (run_session o M bf).rounds
      = [(0, ⟨o.implement o.analyze true,
          Option.some "The compilation output of the preceding code is: Code Test Passed."⟩)] := by
  obtain ⟨k, rfl⟩ : ∃ k, M = k + 2 := ⟨M - 2, by omega⟩
  have hmb : (m == "") = false := by simpa using hm
  have htr : (pyStrip (o.implement o.analyze true) == "") = false := by
    simpa using hcode
  have hlast : (0 == k + 2 - 1) = false := by simp
  rw [run_session]
  rw [runRounds]
  rw [runRound]
  simp [hname, pyTruthyOptStr, pyFormatOptStr, hmb, htr, hlast, hpass, apply_ite]

/-- C3 witness: the always-good oracle with `max_round = 2` terminates
after one tested, passing round. -/
theorem C3_first_round_pass_terminates_in_one_round_witness :
    (run_session goodOracle 2 "").events
      = [⟨"def add(a, b):\n\treturn a + b",
          "def add(a, b):\n\treturn a + b\nassert add(1, 2) == 3\ncheck(add)"⟩]
    ∧ (run_session goodOracle 2 "").rounds
      = [(0, ⟨"def add(a, b):\n\treturn a + b",
          Option.some "The compilation output of the preceding code is: Code Test Passed."⟩)] := by
  have h := C3_first_round_pass_terminates_in_one_round goodOracle 2 "" "add"
    (by decide) rfl (by decide) (by decide) rfl
  simpa using h

/-- C6 counterexample: with `max_round = 1` and a coder whose candidate
has no extractable entry point, round 0 is the final permitted round, yet
the loop does not record the current (empty) artifact for it and does not
terminate with that artifact: it records nothing and terminates with the
error sentinel instead. -/
theorem C6_blank_final_round_records_nothing :
    (run_session badOracle 1 "").rounds = []
    ∧ (run_session badOracle 1 "").code = "error" :=
  ⟨rfl, rfl⟩

/-- C6 (amended): on round index `max_round - 1`, provided the artifact
current after the extraction step is non-blank, the loop neither builds a
test nor executes nor classifies anything (the event log, the report and
`is_init` are untouched): it records the current artifact for that round
without a report and terminates with it — both as a statement about the
loop body and about the remaining loop.  (When the current artifact is
blank, the blank-code branch applies instead and nothing is recorded.) -/
theorem C6_final_round_skips_testing
    (o : Oracle) (M : Nat) (bf plan : String) (st : LoopState)
    (fuel : Nat) (c : String)
    (hM : 1 ≤ M)
    (hc : c = (if pyTruthyOptStr (o.findName (o.implement st.report st.is_init))
        then o.implement st.report st.is_init else st.code))
    (hcode : pyStrip c ≠ "") :
    runRound o M bf plan (M - 1) st
      = ({ st with code := c, rounds := st.rounds ++ [(M - 1, ⟨c, Option.none⟩)] }, true)
    ∧ runRounds o M bf plan (fuel + 1) (M - 1) st
      = { st with code := c, rounds := st.rounds ++ [(M - 1, ⟨c, Option.none⟩)] } := by
  have htr : (pyStrip c == "") = false := by simpa using hcode
  have h1 : runRound o M bf plan (M - 1) st
      = ({ st with code := c, rounds := st.rounds ++ [(M - 1, ⟨c, Option.none⟩)] }, true) := by
    rw [runRound]
    rw [← hc]
    simp [htr]
  refine ⟨h1, ?_⟩
  rw [runRounds]
  simp [h1]

/-- C6 witness: the good oracle with `max_round = 1` at round 0 records
the accepted candidate without testing it and terminates. -/
theorem C6_final_round_skips_testing_witness :
    runRound goodOracle 1 "" "the plan" (1 - 1) stInit
      = ({ stInit with
            code := "def add(a, b):\n\treturn a + b",
            rounds := stInit.rounds
              ++ [(1 - 1, ⟨"def add(a, b):\n\treturn a + b", Option.none⟩)] }, true)
    ∧ runRounds goodOracle 1 "" "the plan" (0 + 1) (1 - 1) stInit
      = { stInit with
            code := "def add(a, b):\n\treturn a + b",
            rounds := stInit.rounds
              ++ [(1 - 1, ⟨"def add(a, b):\n\treturn a + b", Option.none⟩)] } :=
  C6_final_round_skips_testing goodOracle 1 "" "the plan" stInit 0
    "def add(a, b):\n\treturn a + b" (by decide) (by decide) (by decide)

/-- C8 counterexample: when the plan is the literal error sentinel but the
coder produces a valid, passing candidate, `run_session` does terminate
with the error sentinel — but only after requesting tests and executing
the candidate in that round: the event log of the aborting round is not
empty, contradicting the claim that the abort happens without requesting
tests or executing. -/
theorem C8_tests_executed_despite_error_sentinel :
    (run_session errOracle 3 "").code = "error"
    ∧ (run_session errOracle 3 "").events
      = [⟨"def add(a, b):\n\treturn a + b",
          "def add(a, b):\n\treturn a + b\nassert add(1, 2) == 3\ncheck(add)"⟩] :=
  ⟨rfl, rfl⟩

/-- C8 (amended): in a round that reaches the testing stage (non-blank
artifact, not the final permitted round) in which the plan or the
candidate equals the literal error sentinel, the loop does abort and the
Session terminates with the error sentinel — but only at the end of the
round, after building the test and executing the candidate: exactly one
new test-execution event is logged for that round. -/
theorem C8_error_sentinel_aborts_after_testing
    (o : Oracle) (M : Nat) (bf plan : String) (i fuel : Nat)
    (st : LoopState) (c : String)
    (hc : c = (if pyTruthyOptStr (o.findName (o.implement st.report st.is_init))
        then o.implement st.report st.is_init else st.code))
    (hcode : pyStrip c ≠ "")
    (hlast : (i == M - 1) = false)
    (herr : plan = "error" ∨ c = "error") :
    (runRound o M bf plan i st).2 = true
    ∧ (runRound o M bf plan i st).1.code = "error"
    ∧ (runRound o M bf plan i st).1.events
      = st.events ++ [⟨c, bf ++ c ++ "\n" ++ o.truncate (o.test c) ++ "\n"
          ++ ("check(" ++ pyFormatOptStr (o.findName (o.implement st.report st.is_init)) ++ ")")⟩]
    ∧ (runRounds o M bf plan (fuel + 1) i st).code = "error" := by
  have htr : (pyStrip c == "") = false := by simpa using hcode
  refine ⟨?_, ?_, ?_, ?_⟩
  · rw [runRound]; rw [← hc]
    rcases herr with h | h <;> subst h <;> simp [htr, hlast, apply_ite]
  · rw [runRound]; rw [← hc]
    rcases herr with h | h <;> subst h <;> simp [htr, hlast, apply_ite]
  · rw [runRound]; rw [← hc]
    rcases herr with h | h <;> subst h <;> simp [htr, hlast, apply_ite]
  · rw [runRounds]; rw [runRound]; rw [← hc]
    rcases herr with h | h <;> subst h <;> simp [htr, hlast, apply_ite]

/-- C8 witness: with the error-sentinel plan and a valid, passing
candidate, round 0 executes one test and then aborts with the error
sentinel. -/
theorem C8_error_sentinel_aborts_after_testing_witness :
    (runRound errOracle 3 "" "error" 0 stInit).2 = true
    ∧ (runRound errOracle 3 "" "error" 0 stInit).1.code = "error"
    ∧ (runRound errOracle 3 "" "error" 0 stInit).1.events
      = stInit.events ++ [⟨"def add(a, b):\n\treturn a + b",
          "" ++ "def add(a, b):\n\treturn a + b" ++ "\n"
            ++ errOracle.truncate (errOracle.test "def add(a, b):\n\treturn a + b") ++ "\n"
            ++ ("check(" ++ pyFormatOptStr
              (errOracle.findName (errOracle.implement stInit.report stInit.is_init)) ++ ")")⟩]
    ∧ (runRounds errOracle 3 "" "error" (0 + 1) 0 stInit).code = "error" :=
  C8_error_sentinel_aborts_after_testing errOracle 3 "" "error" 0 0 stInit
    "def add(a, b):\n\treturn a + b" (by decide) (by decide) (by decide) (Or.inl rfl)

set_option maxRecDepth 4096 in
/-- C10: in a round of index `i ≥ 1` whose new candidate has no
extractable entry point while a non-blank artifact is retained from an
earlier round, the loop proceeds to testing with the retained artifact,
but the `check` invocation appended to the test program uses the current
round's (failed) extraction result: the executed program ends in the
literal call `check(None)`, not in a call naming the retained artifact's
entry point. -/
theorem C10_retained_code_tested_with_check_None
    (o : Oracle) (M : Nat) (bf plan : String) (i : Nat) (st : LoopState)
    (hi : 1 ≤ i)
    (hfail : o.findName (o.implement st.report st.is_init) = Option.none)
    (hret : pyStrip st.code ≠ "")
    (hlast : (i == M - 1) = false) :
    (runRound o M bf plan i st).1.events
      = st.events ++ [⟨st.code,
          bf ++ st.code ++ "\n" ++ o.truncate (o.test st.code) ++ "\n" ++ "check(None)"⟩] := by
  have htr : (pyStrip st.code == "") = false := by simpa using hret
  rw [runRound]
  rw [hfail]
  simp only [pyTruthyOptStr, pyFormatOptStr, Bool.false_eq_true, if_false, htr, hlast]
  split
  · rfl
  · split <;> rfl

/-- C10 witness: round 1 with an unextractable new candidate and the
retained candidate `add` executes the retained code under `check(None)`. -/
theorem C10_retained_code_tested_with_check_None_witness :
    (runRound badOracle 4 "" "the plan" 1 stRetained).1.events
      = stRetained.events ++ [⟨stRetained.code,
          "" ++ stRetained.code ++ "\n" ++ badOracle.truncate (badOracle.test stRetained.code)
            ++ "\n" ++ "check(None)"⟩] :=
  C10_retained_code_tested_with_check_None badOracle 4 "" "the plan" 1 stRetained
    (by decide) rfl (by decide) (by decide)

end SelfCollab
